import Mathlib

/-!
Verification development for the EQ icon-generation scripts
(`src/EQ-Translator/logogen.py` and `src/logogeneration.py`).

The two Python scripts load a source logo image with the PIL imaging
backend and write three resized PNG icons (16x16, 48x48, 128x128).
This file gives a shallow embedding of both scripts and of the parts of
the imaging backend and the filesystem they touch, and proves the
specification claims about them.

Modelling conventions:
* A raster (`Img`) carries width, height, pixel mode, a flat pixel list,
  and a trace (`history`) of the transformations that produced it.  The
  trace records which backend operations were applied with which
  parameters; the pixel-level behaviour of the backend's LANCZOS
  resampler and UnsharpMask filter is modelled by concrete deterministic
  functions (grid sampling, local-contrast amplification) that agree
  with the real backend on the properties used here (dimensions, mode,
  alpha preservation, determinism).
* The filesystem (`FS`) is an association list of paths to file data,
  plus a set of existing directories, a set of paths where writing
  raises an exception, and a set of paths where the backend's write call
  returns normally but no file is observable afterwards (external
  interference between the save and the script's own existence check).
* Python `try`/`except` control flow is embedded with `Except`; console
  prints are modelled as an ordered list of `Msg` values covering the
  status-relevant messages; a `main` returning normally gives the Python
  process exit status 0.
-/

namespace EQ

/-- Pixel modes of the imaging backend that the spec mentions:
indexed (`P`), `RGB`, `RGBA`. -/
inductive Mode
  | indexed
  | rgb
  | rgba
deriving DecidableEq, Repr

/-- A pixel: an abstract colour value plus an alpha value.  For modes
without an alpha channel the alpha field is carried but not meaningful
until conversion sets it. -/
structure Pixel where
  color : Nat
  alpha : Nat
deriving DecidableEq, Repr

/-- Trace entries for backend image transformations, recording the
operation and its parameters. -/
inductive Op
  | resizedLanczos (w h : Nat)
  | unsharpMask (radius : ℚ) (percent : Nat) (threshold : Nat)
deriving DecidableEq, Repr

/-- An in-memory raster. -/
structure Img where
  width : Nat
  height : Nat
  mode : Mode
  pixels : List Pixel
  history : List Op
deriving DecidableEq, Repr

/-- Model of `source_image.convert('RGBA')` (logogen.py line 35): the
mode becomes RGBA and, the source modes carrying no alpha data, every
pixel receives full opacity (alpha 255) while colour data is kept. -/
def convert_RGBA (img : Img) : Img :=
  { img with mode := .rgba, pixels := img.pixels.map (fun p => { p with alpha := 255 }) }

/-- Pixel of `img` at grid position `(x, y)` in its flat pixel list. -/
def pixel_at (img : Img) (x y : Nat) : Pixel :=
  img.pixels.getD (y * img.width + x) ⟨0, 0⟩

/-- Deterministic model of the backend's LANCZOS resampling to a
`w x h` grid: each target pixel samples the source grid position scaled
proportionally.  The development relies only on this being a
deterministic function of the source pixels and the target size that
takes its values among the source pixels. -/
def lanczos_sample (img : Img) (w h : Nat) : List Pixel :=
  (List.range h).flatMap (fun y =>
    (List.range w).map (fun x =>
      pixel_at img (x * img.width / w) (y * img.height / h)))

/-- Model of `img.resize((w, h), Image.Resampling.LANCZOS)`
(logogen.py line 52, logogeneration.py line 11): a new raster of the
requested dimensions, same mode, resampled pixels, and the operation
recorded in the trace.  The source raster is not modified. -/
def resize (img : Img) (w h : Nat) : Img :=
  { width := w, height := h, mode := img.mode,
    pixels := lanczos_sample img w h,
    history := img.history ++ [.resizedLanczos w h] }

/-- Blurred colour channel used by the unsharp-mask model: each colour
averaged with its list neighbours. -/
def blur_colors (cs : List Nat) : List Nat :=
  (List.range cs.length).map (fun i =>
    (cs.getD (i - 1) (cs.getD i 0) + cs.getD i 0 + cs.getD (i + 1) (cs.getD i 0)) / 3)

/-- Colour sharpening step of the unsharp-mask model: amplify the
difference to the blurred value by `percent`/100 when it reaches
`threshold`. -/
def sharpen_color (percent threshold c b : Nat) : Nat :=
  let diff : Int := (c : Int) - (b : Int)
  if threshold ≤ diff.natAbs then ((c : Int) + diff * percent / 100).toNat else c

/-- Pixel transform of the unsharp-mask model: the colour band is
sharpened, the alpha band is unchanged (the real filter leaves a
constant alpha band fixed as well, the blur of a constant being that
constant). -/
def unsharp_pixels (percent threshold : Nat) (ps : List Pixel) : List Pixel :=
  (ps.zip (blur_colors (ps.map Pixel.color))).map
    (fun pb => ⟨sharpen_color percent threshold pb.1.color pb.2, pb.1.alpha⟩)

/-- Model of `img.filter(ImageFilter.UnsharpMask(radius, percent,
threshold))` (logogen.py line 57): dimensions and mode unchanged,
pixels transformed, the operation and its parameters recorded in the
trace.  The radius parameter shapes the real backend's blur kernel; the
model records it in the trace and uses a fixed small neighbourhood. -/
def unsharp_mask (radius : ℚ) (percent threshold : Nat) (img : Img) : Img :=
  { img with pixels := unsharp_pixels percent threshold img.pixels,
             history := img.history ++ [.unsharpMask radius percent threshold] }

/-- Contents of a file: either an encoded raster (the format name and
whether lossless optimization was requested at save time determine the
byte encoding together with the raster), or bytes the backend cannot
parse as an image. -/
inductive FileData
  | image (fmt : String) (optimize : Bool) (img : Img)
  | undecodable (blob : Nat)
deriving DecidableEq, Repr

/-- The filesystem as the scripts observe it. -/
structure FS where
  /-- Association list from paths to file contents (later entries shadowed). -/
  files : List (String × FileData)
  /-- Existing directories. -/
  dirs : List String
  /-- Paths where a write raises an exception (permissions, invalid target). -/
  unwritable : List String
  /-- Paths where the backend's write returns normally but no file is
  observable afterwards (external interference between the save call and
  the script's own `os.path.exists` check). -/
  ghost : List String
deriving DecidableEq, Repr

/-- Look a path up in the filesystem. -/
def fs_lookup (fs : FS) (path : String) : Option FileData :=
  (fs.files.find? (fun e => e.fst = path)).map Prod.snd

/-- Model of `os.path.exists` on a file path. -/
def path_exists (fs : FS) (path : String) : Bool :=
  (fs_lookup fs path).isSome

/-- Overwrite-or-create a file. -/
def fs_write (fs : FS) (path : String) (d : FileData) : FS :=
  { fs with files := (path, d) :: fs.files.filter (fun e => ¬ e.fst = path) }

/-- Model of `os.makedirs(d)`. -/
def fs_mkdir (fs : FS) (d : String) : FS :=
  { fs with dirs := d :: fs.dirs }

/-- `/` and `\` are the path separators the two scripts use. -/
def is_sep (c : Char) : Bool := c = '/' ∨ c = '\\'

/-- Model of `os.path.dirname`: the path up to (excluding) the last
separator, empty when there is none. -/
def dirname (p : String) : String :=
  match p.data.reverse.dropWhile (fun c => ¬ is_sep c) with
  | [] => ""
  | _ :: t => ⟨t.reverse⟩

/-- Model of `os.path.join` of a directory and a file name. -/
def path_join (dir name : String) : String := dir ++ "/" ++ name

/-- Ways `Image.open` fails: the path does not exist
(`FileNotFoundError`), or the file cannot be parsed as an image
(`UnidentifiedImageError`). -/
inductive OpenError
  | fileNotFound
  | cannotIdentify
deriving DecidableEq, Repr

/-- Model of `Image.open(path)`.  A freshly loaded raster carries an
empty trace: `history` records the transformations applied to it after
loading. -/
def pil_open (fs : FS) (path : String) : Except OpenError Img :=
  match fs_lookup fs path with
  | none => .error .fileNotFound
  | some (.image _ _ img) => .ok { img with history := [] }
  | some (.undecodable _) => .error .cannotIdentify

/-- Model of `img.save(path, fmt, optimize)`: raises when the parent
directory is missing or the path is unwritable; on a `ghost` path the
call returns normally but the filesystem is unchanged; otherwise the
encoded raster is written, overwriting any previous file. -/
def pil_save (fs : FS) (path fmt : String) (optimize : Bool) (img : Img) :
    Except Unit FS :=
  if ¬ dirname path ∈ fs.dirs then .error ()
  else if path ∈ fs.unwritable then .error ()
  else if path ∈ fs.ghost then .ok fs
  else .ok (fs_write fs path (.image fmt optimize img))

/-- Model of PIL inferring the save format from the file extension when
`img.save(path)` is called without a format (logogeneration.py line 14). -/
def infer_format (path : String) : String :=
  if path.data.reverse.take 4 = ['g', 'n', 'p', '.'] then "PNG" else "UNKNOWN"

/-- The status-relevant console messages of the two scripts, in the
order they are printed. -/
inductive Msg
  | openingSource (path : String)
  | convertingRGBA
  | sourceLoaded (w h : Nat)
  | createdDir (d : String)
  | generating (name : String) (size : Nat)
  | applyingSharpen
  | savedFile (path : String)
  | failedSave (path : String)
  | generationComplete
  | errFileNotFound (path : String)
  | errGeneric
  | nextSteps
  | generationFailed
  | warnCannotAnalyze
  | warnNotSquare
  | warnLowRes
  | infoHasAlpha
  | infoWillConvert
  | errNotFoundMain (path : String)
  | foundSource (path : String)
  | createdIcon (path : String) (size : Nat)
  | errCreating (path : String)
  | allIconsCreated
deriving DecidableEq, Repr

/-- The `sizes` table of `create_icon_sizes` (logogen.py lines 21-25),
iterated in insertion order. -/
def sizes_table : List (String × Nat) :=
  [("icon16.png", 16), ("icon48.png", 48), ("icon128.png", 128)]

/-- Result of `create_icon_sizes`: the filesystem, the printed
messages, and the returned boolean. -/
structure GenOut where
  fs : FS
  msgs : List Msg
  ok : Bool
deriving DecidableEq, Repr

/-- The per-size loop of `create_icon_sizes` (logogen.py lines 48-67):
for each `(filename, size)` resize the (already converted) source with
LANCZOS, sharpen when the size is 16, save as optimized PNG, and report
whether the saved file exists.  An exception from the save propagates
to the enclosing `except` handler, which prints a generic error and
returns `False`; files already written stay. -/
def gen_loop (source : Img) (output_dir : String) :
    List (String × Nat) → FS → List Msg → GenOut
  | [], fs, msgs => { fs := fs, msgs := msgs ++ [.generationComplete], ok := true }
  | (filename, size) :: rest, fs, msgs =>
    let output_path := path_join output_dir filename
    let resized := resize source size size
    let resized :=
      if size = 16 then unsharp_mask (1 / 2 : ℚ) 120 2 resized else resized
    let msgs := msgs ++ [.generating filename size] ++
      (if size = 16 then [.applyingSharpen] else [])
    match pil_save fs output_path "PNG" true resized with
    | .error _ => { fs := fs, msgs := msgs ++ [.errGeneric], ok := false }
    | .ok fs' =>
      let msgs := msgs ++
        [if path_exists fs' output_path then .savedFile output_path
         else .failedSave output_path]
      gen_loop source output_dir rest fs' msgs

/-- `create_icon_sizes(input_path, output_dir)` (logogen.py lines
11-95): open the source, convert to RGBA when needed, create the output
directory when missing, then run the per-size loop.  A
`FileNotFoundError` from the open prints the could-not-find message and
returns `False`; any other exception prints a generic error and returns
`False`. -/
def create_icon_sizes (fs : FS) (input_path : String)
    (output_dir : String := "images") : GenOut :=
  match pil_open fs input_path with
  | .error .fileNotFound =>
    { fs := fs, msgs := [.openingSource input_path, .errFileNotFound input_path],
      ok := false }
  | .error .cannotIdentify =>
    { fs := fs, msgs := [.openingSource input_path, .errGeneric], ok := false }
  | .ok source₀ =>
    let source :=
      if ¬ source₀.mode = .rgba then convert_RGBA source₀ else source₀
    let convMsgs := if ¬ source₀.mode = .rgba then [Msg.convertingRGBA] else []
    let msgs := [Msg.openingSource input_path] ++ convMsgs ++
      [.sourceLoaded source.width source.height]
    let (fs₁, msgs₁) :=
      if output_dir ∈ fs.dirs then (fs, msgs)
      else (fs_mkdir fs output_dir, msgs ++ [.createdDir output_dir])
    gen_loop source output_dir sizes_table fs₁ msgs₁

/-- `optimize_for_extension(image_path)` (logogen.py lines 97-122):
purely diagnostic warnings about squareness, minimum resolution and
transparency support; no filesystem effect, no return value. -/
def optimize_for_extension (fs : FS) (image_path : String) : List Msg :=
  match pil_open fs image_path with
  | .error _ => [.warnCannotAnalyze]
  | .ok img =>
    (if ¬ img.width = img.height then [Msg.warnNotSquare] else []) ++
    (if min img.width img.height < 128 then [Msg.warnLowRes] else []) ++
    (if img.mode = .rgba then [Msg.infoHasAlpha] else [Msg.infoWillConvert])

/-- Result of running a script's `main`: the filesystem, the printed
messages, and the process exit status. -/
structure MainOut where
  fs : FS
  msgs : List Msg
  exitCode : Nat
deriving DecidableEq, Repr

/-- `main()` of logogen.py (lines 124-169), with `args` the command
line after the script name: pick the input file, bail out (returning
normally, hence exit status 0) when it does not exist, otherwise run
the advisory checks and `create_icon_sizes`, then print the next-steps
or failure summary.  Every branch returns normally, so the Python
process exits with status 0. -/
def logogen_main (fs : FS) (args : List String) : MainOut :=
  let input_file := match args with
    | [] => "logomain.png"
    | a :: _ => a
  if ¬ path_exists fs input_file then
    { fs := fs, msgs := [.errNotFoundMain input_file], exitCode := 0 }
  else
    let analysisMsgs := optimize_for_extension fs input_file
    let g := create_icon_sizes fs input_file "images"
    { fs := g.fs,
      msgs := analysisMsgs ++ g.msgs ++
        [if g.ok then .nextSteps else .generationFailed],
      exitCode := 0 }

/-- Result of `resize_icon`: the filesystem, the returned boolean, and
the printed messages. -/
structure IconOut where
  fs : FS
  ok : Bool
  msgs : List Msg
deriving DecidableEq, Repr

/-- `resize_icon(input_path, output_path, size)` (logogeneration.py
lines 4-20): open, resize with LANCZOS to `(size, size)`, save with the
format inferred from the extension (no optimization requested).  No
mode conversion and no sharpening happen in this variant.  Any
exception is caught, an error for this output is printed, and `False`
is returned. -/
def resize_icon (fs : FS) (input_path output_path : String) (size : Nat) :
    IconOut :=
  match pil_open fs input_path with
  | .error _ => { fs := fs, ok := false, msgs := [.errCreating output_path] }
  | .ok img =>
    let resized := resize img size size
    match pil_save fs output_path (infer_format output_path) false resized with
    | .error _ => { fs := fs, ok := false, msgs := [.errCreating output_path] }
    | .ok fs' =>
      { fs := fs', ok := true,
        msgs := [.createdIcon output_path size] }

/-- The hard-coded input path of logogeneration.py (line 24). -/
def logogeneration_input_file : String :=
  "C:\\Users\\Christian Okeke\\EQ\\EQ-Translator\\images\\logomain.png"

/-- The icon sizes of logogeneration.py (line 30). -/
def icon_sizes : List Nat := [16, 48, 128]

/-- `main()` of logogeneration.py (lines 22-51): bail out (exit status
0) when the hard-coded input file is missing; otherwise call
`resize_icon` for each size, ignoring its returned boolean, and print
the all-icons-created summary unconditionally.  Every branch returns
normally, so the Python process exits with status 0. -/
def logogeneration_main (fs : FS) : MainOut :=
  let input_file := logogeneration_input_file
  let images_dir := dirname input_file
  if ¬ path_exists fs input_file then
    { fs := fs, msgs := [.errNotFoundMain input_file], exitCode := 0 }
  else
    let step := fun (acc : FS × List Msg) (size : Nat) =>
      let output_file := path_join images_dir ("icon" ++ toString size ++ ".png")
      let r := resize_icon acc.1 input_file output_file size
      (r.fs, acc.2 ++ r.msgs)
    let out := icon_sizes.foldl step (fs, [.foundSource input_file])
    { fs := out.1, msgs := out.2 ++ [.allIconsCreated], exitCode := 0 }

/-! ### Canonical initial filesystems and observation helpers -/

/-- A filesystem holding exactly one decodable image at the default
source path of logogen.py, with no directories yet. -/
def input_fs (img : Img) : FS :=
  ⟨[("logomain.png", .image "PNG" false img)], [], [], []⟩

/-- A filesystem holding exactly one decodable image at the hard-coded
source path of logogeneration.py, whose directory exists. -/
def lg_fs (img : Img) : FS :=
  ⟨[(logogeneration_input_file, .image "PNG" false img)],
   [dirname logogeneration_input_file], [], []⟩

/-- The output path of logogeneration.py for a given size. -/
def lg_out (size : Nat) : String :=
  path_join (dirname logogeneration_input_file)
    ("icon" ++ toString size ++ ".png")

/-- The raster stored at a path, when the path holds an encoded image. -/
def saved_img (fs : FS) (p : String) : Option Img :=
  match fs_lookup fs p with
  | some (.image _ _ i) => some i
  | _ => none

/-! ### Basic lemmas about the raster operations and the filesystem -/

@[simp] theorem resize_width (img : Img) (w h : Nat) : (resize img w h).width = w := rfl

@[simp] theorem resize_height (img : Img) (w h : Nat) : (resize img w h).height = h := rfl

@[simp] theorem resize_mode (img : Img) (w h : Nat) : (resize img w h).mode = img.mode := rfl

@[simp] theorem resize_history (img : Img) (w h : Nat) :
    (resize img w h).history = img.history ++ [.resizedLanczos w h] := rfl

@[simp] theorem unsharp_width (r : ℚ) (p t : Nat) (img : Img) :
    (unsharp_mask r p t img).width = img.width := rfl

@[simp] theorem unsharp_height (r : ℚ) (p t : Nat) (img : Img) :
    (unsharp_mask r p t img).height = img.height := rfl

@[simp] theorem unsharp_mode (r : ℚ) (p t : Nat) (img : Img) :
    (unsharp_mask r p t img).mode = img.mode := rfl

@[simp] theorem unsharp_history (r : ℚ) (p t : Nat) (img : Img) :
    (unsharp_mask r p t img).history = img.history ++ [.unsharpMask r p t] := rfl

@[simp] theorem convert_mode (img : Img) : (convert_RGBA img).mode = .rgba := rfl

@[simp] theorem convert_width (img : Img) : (convert_RGBA img).width = img.width := rfl

@[simp] theorem convert_height (img : Img) : (convert_RGBA img).height = img.height := rfl

@[simp] theorem convert_history (img : Img) : (convert_RGBA img).history = img.history := rfl

@[simp] theorem fs_write_dirs (fs : FS) (p : String) (d : FileData) :
    (fs_write fs p d).dirs = fs.dirs := rfl

@[simp] theorem fs_write_unwritable (fs : FS) (p : String) (d : FileData) :
    (fs_write fs p d).unwritable = fs.unwritable := rfl

@[simp] theorem fs_write_ghost (fs : FS) (p : String) (d : FileData) :
    (fs_write fs p d).ghost = fs.ghost := rfl

@[simp] theorem fs_mkdir_dirs (fs : FS) (d : String) :
    (fs_mkdir fs d).dirs = d :: fs.dirs := rfl

@[simp] theorem fs_mkdir_unwritable (fs : FS) (d : String) :
    (fs_mkdir fs d).unwritable = fs.unwritable := rfl

@[simp] theorem fs_mkdir_ghost (fs : FS) (d : String) :
    (fs_mkdir fs d).ghost = fs.ghost := rfl

@[simp] theorem fs_lookup_mkdir (fs : FS) (d p : String) :
    fs_lookup (fs_mkdir fs d) p = fs_lookup fs p := rfl

@[simp] theorem fs_lookup_write_self (fs : FS) (p : String) (d : FileData) :
    fs_lookup (fs_write fs p d) p = some d := by
  simp [fs_lookup, fs_write]

theorem find?_filter_ne (l : List (String × FileData)) (p q : String)
    (h : ¬ q = p) :
    (l.filter (fun e => ¬ e.fst = p)).find? (fun e => e.fst = q) =
      l.find? (fun e => e.fst = q) := by
  induction l with
  | nil => rfl
  | cons a l ih =>
    by_cases hp : a.fst = p
    · have hq : ¬ a.fst = q := fun hc => h (hc ▸ hp)
      rw [List.filter_cons_of_neg (by simpa using hp),
        List.find?_cons_of_neg _ (by simpa using hq)]
      exact ih
    · rw [List.filter_cons_of_pos (by simpa using hp)]
      by_cases hq : a.fst = q
      · rw [List.find?_cons_of_pos _ (by simpa using hq),
          List.find?_cons_of_pos _ (by simpa using hq)]
      · rw [List.find?_cons_of_neg _ (by simpa using hq),
          List.find?_cons_of_neg _ (by simpa using hq)]
        exact ih

@[simp] theorem fs_lookup_write_ne (fs : FS) (p q : String) (d : FileData)
    (h : ¬ q = p) :
    fs_lookup (fs_write fs p d) q = fs_lookup fs q := by
  unfold fs_lookup fs_write
  rw [List.find?_cons_of_neg _ (by simpa using Ne.symm h),
    find?_filter_ne fs.files p q h]

@[simp] theorem fs_lookup_input_fs (img : Img) (q : String) :
    fs_lookup (input_fs img) q =
      if q = "logomain.png" then some (.image "PNG" false img) else none := by
  by_cases hq : q = "logomain.png"
  · simp [fs_lookup, input_fs, hq]
  · simp [fs_lookup, input_fs, hq, Ne.symm hq]

@[simp] theorem input_fs_dirs (img : Img) : (input_fs img).dirs = [] := rfl

@[simp] theorem input_fs_unwritable (img : Img) : (input_fs img).unwritable = [] := rfl

@[simp] theorem input_fs_ghost (img : Img) : (input_fs img).ghost = [] := rfl

@[simp] theorem fs_lookup_lg_fs (img : Img) (q : String) :
    fs_lookup (lg_fs img) q =
      if q = logogeneration_input_file then some (.image "PNG" false img)
      else none := by
  by_cases hq : q = logogeneration_input_file
  · simp [fs_lookup, lg_fs, hq]
  · simp [fs_lookup, lg_fs, hq, Ne.symm hq]

@[simp] theorem lg_fs_dirs (img : Img) :
    (lg_fs img).dirs = [dirname logogeneration_input_file] := rfl

@[simp] theorem lg_fs_unwritable (img : Img) : (lg_fs img).unwritable = [] := rfl

@[simp] theorem lg_fs_ghost (img : Img) : (lg_fs img).ghost = [] := rfl

@[simp] theorem fs_lookup_mk (files : List (String × FileData))
    (ds uw g : List String) (p : String) :
    fs_lookup ⟨files, ds, uw, g⟩ p =
      (files.find? (fun e => e.fst = p)).map Prod.snd := rfl

/-- A concrete non-square RGB sample raster used as test input. -/
def sample_img : Img := ⟨2, 1, .rgb, [⟨10, 0⟩, ⟨200, 0⟩], []⟩

/-! ### Claims -/

/-- C1: for every decodable source image, square or not, the logogen
resizer produces for each target edge length in {16, 48, 128} an output
raster whose width and height both equal that edge length, returning
normally (`ok = true`), and the logogeneration variant saves outputs of
the same square dimensions.  The source's width and height are
universally quantified and do not appear in the output dimensions, so
the image is stretched to a square rather than aspect-preserved; a
non-square source additionally draws the advisory warning in logogen's
`main`. -/
theorem C1_square_outputs (img : Img) :
    ((create_icon_sizes (input_fs img) "logomain.png").ok = true ∧
      (saved_img (create_icon_sizes (input_fs img) "logomain.png").fs
          "images/icon16.png").map (fun i => (i.width, i.height)) =
        some (16, 16) ∧
      (saved_img (create_icon_sizes (input_fs img) "logomain.png").fs
          "images/icon48.png").map (fun i => (i.width, i.height)) =
        some (48, 48) ∧
      (saved_img (create_icon_sizes (input_fs img) "logomain.png").fs
          "images/icon128.png").map (fun i => (i.width, i.height)) =
        some (128, 128)) ∧
    ((saved_img (logogeneration_main (lg_fs img)).fs (lg_out 16)).map
        (fun i => (i.width, i.height)) = some (16, 16) ∧
      (saved_img (logogeneration_main (lg_fs img)).fs (lg_out 48)).map
        (fun i => (i.width, i.height)) = some (48, 48) ∧
      (saved_img (logogeneration_main (lg_fs img)).fs (lg_out 128)).map
        (fun i => (i.width, i.height)) = some (128, 128)) ∧
    (¬ img.width = img.height →
      Msg.warnNotSquare ∈ (logogen_main (input_fs img) []).msgs) := by
  refine ⟨?_, ?_, ?_⟩
  · by_cases hm : img.mode = .rgba <;>
    simp +decide [create_icon_sizes, gen_loop, sizes_table, pil_open, pil_save,
      path_exists, path_join, saved_img, hm]
  · simp +decide [logogeneration_main, icon_sizes, resize_icon, pil_open,
      pil_save, path_exists, path_join, saved_img, lg_out]
  · intro hns
    simp +decide [logogen_main, optimize_for_extension, pil_open, path_exists,
      hns]

/-- Witness for C1 at the concrete non-square 2x1 sample image. -/
theorem C1_square_outputs_witness :
    ¬ sample_img.width = sample_img.height ∧
      Msg.warnNotSquare ∈ (logogen_main (input_fs sample_img) []).msgs :=
  ⟨by decide, (C1_square_outputs sample_img).2.2 (by decide)⟩

/-- Full opacity of a raster's pixels. -/
def all_opaque (i : Img) : Prop := ∀ p ∈ i.pixels, p.alpha = 255

/-- Every pixel of a converted raster is fully opaque. -/
theorem convert_all_opaque (img : Img) :
    ∀ p ∈ (convert_RGBA img).pixels, p.alpha = 255 := by
  intro p hp
  simp only [convert_RGBA, List.mem_map] at hp
  obtain ⟨q, _, rfl⟩ := hp
  rfl

/-- Resampling a raster with a full, fully opaque pixel grid yields
fully opaque pixels. -/
theorem lanczos_all_opaque (img : Img) (hw : 0 < img.width)
    (hh : 0 < img.height)
    (hlen : img.pixels.length = img.width * img.height)
    (hall : ∀ p ∈ img.pixels, p.alpha = 255) (w h : Nat) :
    ∀ p ∈ lanczos_sample img w h, p.alpha = 255 := by
  intro p hp
  simp only [lanczos_sample, List.mem_flatMap, List.mem_map, List.mem_range] at hp
  obtain ⟨y, hy, x, hx, rfl⟩ := hp
  have hx' : x * img.width / w < img.width := by
    apply Nat.div_lt_of_lt_mul
    exact Nat.mul_lt_mul_of_pos_right hx hw
  have hy' : y * img.height / h < img.height := by
    apply Nat.div_lt_of_lt_mul
    exact Nat.mul_lt_mul_of_pos_right hy hh
  have hidx : y * img.height / h * img.width + x * img.width / w <
      img.pixels.length := by
    rw [hlen]
    calc y * img.height / h * img.width + x * img.width / w
        < y * img.height / h * img.width + img.width :=
          Nat.add_lt_add_left hx' _
      _ = (y * img.height / h + 1) * img.width := by ring
      _ ≤ img.height * img.width := Nat.mul_le_mul_right _ (by omega)
      _ = img.width * img.height := Nat.mul_comm _ _
  unfold pixel_at
  rw [List.getD_eq_getElem _ _ hidx]
  exact hall _ (List.getElem_mem hidx)

/-- The unsharp-mask pixel transform keeps an opaque alpha band
opaque. -/
theorem unsharp_all_opaque (pc th : Nat) (ps : List Pixel)
    (hall : ∀ p ∈ ps, p.alpha = 255) :
    ∀ p ∈ unsharp_pixels pc th ps, p.alpha = 255 := by
  intro p hp
  simp only [unsharp_pixels, List.mem_map] at hp
  obtain ⟨pb, hpb, rfl⟩ := hp
  exact hall pb.1 (List.of_mem_zip hpb).1

/-- The 16 px output of a logogen run on a non-RGBA source. -/
theorem saved16_eq (img : Img) (hm : ¬ img.mode = .rgba) :
    saved_img (create_icon_sizes (input_fs img) "logomain.png").fs
      "images/icon16.png" =
      some (unsharp_mask (1 / 2 : ℚ) 120 2
        (resize (convert_RGBA ⟨img.width, img.height, img.mode, img.pixels, []⟩)
          16 16)) := by
  simp +decide [create_icon_sizes, gen_loop, sizes_table, pil_open, pil_save,
    path_exists, path_join, saved_img, hm]

/-- The 48 px output of a logogen run on a non-RGBA source. -/
theorem saved48_eq (img : Img) (hm : ¬ img.mode = .rgba) :
    saved_img (create_icon_sizes (input_fs img) "logomain.png").fs
      "images/icon48.png" =
      some (resize (convert_RGBA ⟨img.width, img.height, img.mode, img.pixels, []⟩)
        48 48) := by
  simp +decide [create_icon_sizes, gen_loop, sizes_table, pil_open, pil_save,
    path_exists, path_join, saved_img, hm]

/-- The 128 px output of a logogen run on a non-RGBA source. -/
theorem saved128_eq (img : Img) (hm : ¬ img.mode = .rgba) :
    saved_img (create_icon_sizes (input_fs img) "logomain.png").fs
      "images/icon128.png" =
      some (resize (convert_RGBA ⟨img.width, img.height, img.mode, img.pixels, []⟩)
        128 128) := by
  simp +decide [create_icon_sizes, gen_loop, sizes_table, pil_open, pil_save,
    path_exists, path_join, saved_img, hm]

/-- C2 (amended): in the logogen variant every output raster is in RGBA
mode whatever the source's mode, and when the source lacked alpha every
output pixel carries full opacity; the logogeneration variant converts
nothing and preserves the source's mode in its outputs. -/
theorem C2_alpha_channel (img : Img) (hw : 0 < img.width)
    (hh : 0 < img.height)
    (hlen : img.pixels.length = img.width * img.height) :
    ((saved_img (create_icon_sizes (input_fs img) "logomain.png").fs
        "images/icon16.png").map Img.mode = some .rgba ∧
      (saved_img (create_icon_sizes (input_fs img) "logomain.png").fs
        "images/icon48.png").map Img.mode = some .rgba ∧
      (saved_img (create_icon_sizes (input_fs img) "logomain.png").fs
        "images/icon128.png").map Img.mode = some .rgba) ∧
    (¬ img.mode = .rgba →
      (∃ i, saved_img (create_icon_sizes (input_fs img) "logomain.png").fs
          "images/icon16.png" = some i ∧ all_opaque i) ∧
      (∃ i, saved_img (create_icon_sizes (input_fs img) "logomain.png").fs
          "images/icon48.png" = some i ∧ all_opaque i) ∧
      (∃ i, saved_img (create_icon_sizes (input_fs img) "logomain.png").fs
          "images/icon128.png" = some i ∧ all_opaque i)) ∧
    ((saved_img (logogeneration_main (lg_fs img)).fs (lg_out 16)).map
        Img.mode = some img.mode ∧
      (saved_img (logogeneration_main (lg_fs img)).fs (lg_out 48)).map
        Img.mode = some img.mode ∧
      (saved_img (logogeneration_main (lg_fs img)).fs (lg_out 128)).map
        Img.mode = some img.mode) := by
  refine ⟨?_, ?_, ?_⟩
  · by_cases hm : img.mode = .rgba <;>
    simp +decide [create_icon_sizes, gen_loop, sizes_table, pil_open, pil_save,
      path_exists, path_join, saved_img, hm]
  · intro hm
    have hop : ∀ p ∈ (convert_RGBA
        ⟨img.width, img.height, img.mode, img.pixels, []⟩).pixels,
        p.alpha = 255 := convert_all_opaque _
    have hs : ∀ w h : Nat, ∀ p ∈ lanczos_sample
        (convert_RGBA ⟨img.width, img.height, img.mode, img.pixels, []⟩) w h,
        p.alpha = 255 := by
      intro w h
      apply lanczos_all_opaque
      · exact hw
      · exact hh
      · simpa [convert_RGBA] using hlen
      · exact hop
    refine ⟨⟨_, saved16_eq img hm, ?_⟩, ⟨_, saved48_eq img hm, ?_⟩,
      ⟨_, saved128_eq img hm, ?_⟩⟩
    · intro p hp
      exact unsharp_all_opaque 120 2 _ (hs 16 16) p hp
    · intro p hp
      exact hs 48 48 p hp
    · intro p hp
      exact hs 128 128 p hp
  · simp +decide [logogeneration_main, icon_sizes, resize_icon, pil_open,
      pil_save, path_exists, path_join, saved_img, lg_out]

/-- C2 counterexample: the logogeneration resizer run on an RGB source
saves an RGB output, not an RGBA one, so not every output of the code
carries an alpha channel. -/
theorem C2_counterexample :
    (saved_img (resize_icon (lg_fs sample_img) logogeneration_input_file
        (lg_out 16) 16).fs (lg_out 16)).map Img.mode = some Mode.rgb ∧
      ¬ Mode.rgb = Mode.rgba := by
  constructor
  · simp +decide [resize_icon, pil_open, pil_save, path_exists, path_join,
      saved_img, lg_out, sample_img]
  · decide

/-- Witness for C2 at the concrete 2x1 RGB sample image. -/
theorem C2_alpha_channel_witness :
    (0 < sample_img.width ∧ 0 < sample_img.height ∧
      sample_img.pixels.length = sample_img.width * sample_img.height ∧
      ¬ sample_img.mode = .rgba) ∧
      (∃ i, saved_img (create_icon_sizes (input_fs sample_img)
          "logomain.png").fs "images/icon16.png" = some i ∧ all_opaque i) :=
  ⟨by decide,
    ((C2_alpha_channel sample_img (by decide) (by decide) (by decide)).2.1
      (by decide)).1⟩

/-- C3 (amended): in the logogen variant the unsharp-mask filter with
radius 0.5, amount 120 percent, threshold 2 is applied after resampling
exactly when the edge length is 16 and never for 48 or 128, as the
operation traces of the saved outputs show; the logogeneration variant
applies no sharpening at any size, 16 included. -/
theorem C3_sharpen_only_16 (img : Img) :
    ((∃ i, saved_img (create_icon_sizes (input_fs img) "logomain.png").fs
        "images/icon16.png" = some i ∧
        i.history = [.resizedLanczos 16 16, .unsharpMask (1 / 2 : ℚ) 120 2]) ∧
      (∃ i, saved_img (create_icon_sizes (input_fs img) "logomain.png").fs
        "images/icon48.png" = some i ∧
        i.history = [.resizedLanczos 48 48] ∧
        ∀ r : ℚ, ∀ pc t : Nat, ¬ Op.unsharpMask r pc t ∈ i.history) ∧
      (∃ i, saved_img (create_icon_sizes (input_fs img) "logomain.png").fs
        "images/icon128.png" = some i ∧
        i.history = [.resizedLanczos 128 128] ∧
        ∀ r : ℚ, ∀ pc t : Nat, ¬ Op.unsharpMask r pc t ∈ i.history)) ∧
    ((∃ i, saved_img (logogeneration_main (lg_fs img)).fs (lg_out 16) =
        some i ∧ i.history = [.resizedLanczos 16 16] ∧
        ∀ r : ℚ, ∀ pc t : Nat, ¬ Op.unsharpMask r pc t ∈ i.history) ∧
      (∃ i, saved_img (logogeneration_main (lg_fs img)).fs (lg_out 48) =
        some i ∧ i.history = [.resizedLanczos 48 48]) ∧
      (∃ i, saved_img (logogeneration_main (lg_fs img)).fs (lg_out 128) =
        some i ∧ i.history = [.resizedLanczos 128 128])) := by
  constructor
  · by_cases hm : img.mode = .rgba <;>
    simp +decide [create_icon_sizes, gen_loop, sizes_table, pil_open, pil_save,
      path_exists, path_join, saved_img, hm]
  · simp +decide [logogeneration_main, icon_sizes, resize_icon, pil_open,
      pil_save, path_exists, path_join, saved_img, lg_out]

/-- C3 counterexample: at edge length 16 the logogeneration resizer
applies no unsharp-mask filter at all, so the filter is not applied
exactly when the edge length is 16 in that variant. -/
theorem C3_counterexample :
    ∃ i, saved_img (resize_icon (lg_fs sample_img) logogeneration_input_file
        (lg_out 16) 16).fs (lg_out 16) = some i ∧
      i.history = [.resizedLanczos 16 16] ∧
      ∀ r : ℚ, ∀ pc t : Nat, ¬ Op.unsharpMask r pc t ∈ i.history := by
  simp +decide [resize_icon, pil_open, pil_save, path_exists, path_join,
    saved_img, lg_out, sample_img]

/-- C4 (amended): a missing source makes either `main` report the
not-found error and terminate with the filesystem unchanged, and a
present but undecodable source also leaves the filesystem unchanged
(zero output files, no partial subset) — but it is reported as a generic
error (logogen) or as three per-output errors with the success banner
still printed (logogeneration), not as a source-not-found error. -/
theorem C4_no_partial_outputs :
    (∀ (fs : FS) (args : List String),
      ¬ path_exists fs (args.headD "logomain.png") = true →
      logogen_main fs args =
        ⟨fs, [.errNotFoundMain (args.headD "logomain.png")], 0⟩) ∧
    (∀ fs : FS, ¬ path_exists fs logogeneration_input_file = true →
      logogeneration_main fs =
        ⟨fs, [.errNotFoundMain logogeneration_input_file], 0⟩) ∧
    (∀ (blob : Nat) (ds uw g : List String),
      logogen_main ⟨[("logomain.png", .undecodable blob)], ds, uw, g⟩ [] =
        ⟨⟨[("logomain.png", .undecodable blob)], ds, uw, g⟩,
         [.warnCannotAnalyze, .openingSource "logomain.png", .errGeneric,
          .generationFailed], 0⟩) ∧
    (∀ (blob : Nat) (ds uw g : List String),
      logogeneration_main
          ⟨[(logogeneration_input_file, .undecodable blob)], ds, uw, g⟩ =
        ⟨⟨[(logogeneration_input_file, .undecodable blob)], ds, uw, g⟩,
         [.foundSource logogeneration_input_file, .errCreating (lg_out 16),
          .errCreating (lg_out 48), .errCreating (lg_out 128),
          .allIconsCreated], 0⟩) := by
  refine ⟨?_, ?_, ?_, ?_⟩
  · intro fs args h
    cases args with
    | nil =>
      simp only [List.headD] at h
      simp [logogen_main, h]
    | cons a as =>
      simp only [List.headD] at h
      simp [logogen_main, h]
  · intro fs h
    simp [logogeneration_main, h]
  · intro blob ds uw g
    simp +decide [logogen_main, create_icon_sizes, optimize_for_extension,
      pil_open, path_exists]
  · intro blob ds uw g
    simp +decide [logogeneration_main, icon_sizes, resize_icon, pil_open,
      path_exists, path_join, lg_out]

/-- C4 counterexample: a present but undecodable source file is
reported by logogen's `main` as a generic error, not as the
source-not-found error, though zero output files are written. -/
theorem C4_counterexample :
    pil_open ⟨[("logomain.png", .undecodable 7)], [], [], []⟩ "logomain.png" =
        .error .cannotIdentify ∧
      Msg.errGeneric ∈
        (logogen_main ⟨[("logomain.png", .undecodable 7)], [], [], []⟩ []).msgs ∧
      ¬ Msg.errNotFoundMain "logomain.png" ∈
        (logogen_main ⟨[("logomain.png", .undecodable 7)], [], [], []⟩ []).msgs ∧
      ¬ Msg.errFileNotFound "logomain.png" ∈
        (logogen_main ⟨[("logomain.png", .undecodable 7)], [], [], []⟩ []).msgs ∧
      (logogen_main ⟨[("logomain.png", .undecodable 7)], [], [], []⟩ []).fs =
        ⟨[("logomain.png", .undecodable 7)], [], [], []⟩ :=
  ⟨rfl, by decide, by decide, by decide, by decide⟩

/-- Witness for C4: the missing-source branches applied to the empty
filesystem. -/
theorem C4_no_partial_outputs_witness :
    (¬ path_exists ⟨[], [], [], []⟩ (([] : List String).headD "logomain.png") =
        true ∧
      logogen_main ⟨[], [], [], []⟩ [] =
        ⟨⟨[], [], [], []⟩, [.errNotFoundMain "logomain.png"], 0⟩) ∧
      logogeneration_main ⟨[], [], [], []⟩ =
        ⟨⟨[], [], [], []⟩, [.errNotFoundMain logogeneration_input_file], 0⟩ :=
  ⟨⟨by decide, (C4_no_partial_outputs).1 ⟨[], [], [], []⟩ [] (by decide)⟩,
    (C4_no_partial_outputs).2.1 ⟨[], [], [], []⟩ (by decide)⟩

/-- C5: each of the three outputs is written in PNG format with
optimization to `icon16.png`, `icon48.png`, `icon128.png` joined under
the default output directory `images/`, and the missing output
directory is created before the first save — starting from a filesystem
with no directories at all, where `pil_save` raises whenever the parent
directory is missing, all three saves nevertheless succeed and the
directory exists afterwards. -/
theorem C5_png_outputs_mkdir (img : Img) :
    (create_icon_sizes (input_fs img) "logomain.png").ok = true ∧
    "images" ∈ (create_icon_sizes (input_fs img) "logomain.png").fs.dirs ∧
    Msg.createdDir "images" ∈
      (create_icon_sizes (input_fs img) "logomain.png").msgs ∧
    (∃ i, fs_lookup (create_icon_sizes (input_fs img) "logomain.png").fs
      (path_join "images" "icon16.png") = some (.image "PNG" true i)) ∧
    (∃ i, fs_lookup (create_icon_sizes (input_fs img) "logomain.png").fs
      (path_join "images" "icon48.png") = some (.image "PNG" true i)) ∧
    (∃ i, fs_lookup (create_icon_sizes (input_fs img) "logomain.png").fs
      (path_join "images" "icon128.png") = some (.image "PNG" true i)) := by
  by_cases hm : img.mode = .rgba <;>
  simp +decide [create_icon_sizes, gen_loop, sizes_table, pil_open, pil_save,
    path_exists, path_join, hm]

/-- C6: failure handling differs as the claim states.  When the 16 px
output path is unwritable, the logogeneration variant reports the
per-size failure and still attempts and completes the remaining sizes
48 and 128; in the logogen variant the same failure raises out of the
loop, the run reports a single error and returns `False`, and no later
size is attempted. -/
theorem C6_failure_policy (img : Img) :
    (Msg.errCreating (lg_out 16) ∈
        (logogeneration_main ⟨[(logogeneration_input_file,
          .image "PNG" false img)], [dirname logogeneration_input_file],
          [lg_out 16], []⟩).msgs ∧
      fs_lookup (logogeneration_main ⟨[(logogeneration_input_file,
          .image "PNG" false img)], [dirname logogeneration_input_file],
          [lg_out 16], []⟩).fs (lg_out 16) = none ∧
      (∃ i, fs_lookup (logogeneration_main ⟨[(logogeneration_input_file,
          .image "PNG" false img)], [dirname logogeneration_input_file],
          [lg_out 16], []⟩).fs (lg_out 48) = some (.image "PNG" false i)) ∧
      (∃ i, fs_lookup (logogeneration_main ⟨[(logogeneration_input_file,
          .image "PNG" false img)], [dirname logogeneration_input_file],
          [lg_out 16], []⟩).fs (lg_out 128) = some (.image "PNG" false i))) ∧
    ((create_icon_sizes ⟨[("logomain.png", .image "PNG" false img)], [],
        ["images/icon16.png"], []⟩ "logomain.png").ok = false ∧
      Msg.errGeneric ∈ (create_icon_sizes ⟨[("logomain.png",
        .image "PNG" false img)], [], ["images/icon16.png"], []⟩
        "logomain.png").msgs ∧
      fs_lookup (create_icon_sizes ⟨[("logomain.png", .image "PNG" false img)],
        [], ["images/icon16.png"], []⟩ "logomain.png").fs
        "images/icon16.png" = none ∧
      fs_lookup (create_icon_sizes ⟨[("logomain.png", .image "PNG" false img)],
        [], ["images/icon16.png"], []⟩ "logomain.png").fs
        "images/icon48.png" = none ∧
      fs_lookup (create_icon_sizes ⟨[("logomain.png", .image "PNG" false img)],
        [], ["images/icon16.png"], []⟩ "logomain.png").fs
        "images/icon128.png" = none) := by
  constructor
  · simp +decide [logogeneration_main, icon_sizes, resize_icon, pil_open,
      pil_save, path_exists, path_join, lg_out, infer_format]
  · by_cases hm : img.mode = .rgba <;>
    simp +decide [create_icon_sizes, gen_loop, sizes_table, pil_open, pil_save,
      path_exists, path_join, hm]

/-- C7 (amended): both scripts always terminate with process exit
status 0, on successful runs and on runs that only report errors alike;
the exit status never reflects failure. -/
theorem C7_exit_always_zero :
    (∀ (fs : FS) (args : List String), (logogen_main fs args).exitCode = 0) ∧
    (∀ fs : FS, (logogeneration_main fs).exitCode = 0) := by
  constructor
  · intro fs args
    cases args with
    | nil =>
      unfold logogen_main
      dsimp only
      split <;> rfl
    | cons a as =>
      unfold logogen_main
      dsimp only
      split <;> rfl
  · intro fs
    unfold logogeneration_main
    dsimp only
    split <;> rfl

/-- C7 counterexample: a run that reports the missing-source error
still exits with status 0, the success status, not a non-success
one. -/
theorem C7_counterexample :
    (logogen_main ⟨[], [], [], []⟩ []).msgs =
        [.errNotFoundMain "logomain.png"] ∧
      (logogen_main ⟨[], [], [], []⟩ []).exitCode = 0 := by
  decide

/-- C8: each variant is deterministic, so re-running it on the
filesystem left by a first run — same source bytes, same output
directory, same parameters — succeeds again and overwrites every output
with byte-for-byte identical file data (`FileData` equality is byte
equality in the model), leaving the source file intact. -/
theorem C8_deterministic_rerun (img : Img) :
    ((create_icon_sizes (input_fs img) "logomain.png").ok = true ∧
      (create_icon_sizes (create_icon_sizes (input_fs img) "logomain.png").fs
        "logomain.png").ok = true ∧
      fs_lookup (create_icon_sizes (create_icon_sizes (input_fs img)
          "logomain.png").fs "logomain.png").fs "images/icon16.png" =
        fs_lookup (create_icon_sizes (input_fs img) "logomain.png").fs
          "images/icon16.png" ∧
      fs_lookup (create_icon_sizes (create_icon_sizes (input_fs img)
          "logomain.png").fs "logomain.png").fs "images/icon48.png" =
        fs_lookup (create_icon_sizes (input_fs img) "logomain.png").fs
          "images/icon48.png" ∧
      fs_lookup (create_icon_sizes (create_icon_sizes (input_fs img)
          "logomain.png").fs "logomain.png").fs "images/icon128.png" =
        fs_lookup (create_icon_sizes (input_fs img) "logomain.png").fs
          "images/icon128.png" ∧
      fs_lookup (create_icon_sizes (create_icon_sizes (input_fs img)
          "logomain.png").fs "logomain.png").fs "logomain.png" =
        some (.image "PNG" false img)) ∧
    (fs_lookup (logogeneration_main (logogeneration_main (lg_fs img)).fs).fs
        (lg_out 16) =
      fs_lookup (logogeneration_main (lg_fs img)).fs (lg_out 16) ∧
      fs_lookup (logogeneration_main (logogeneration_main (lg_fs img)).fs).fs
        (lg_out 48) =
      fs_lookup (logogeneration_main (lg_fs img)).fs (lg_out 48) ∧
      fs_lookup (logogeneration_main (logogeneration_main (lg_fs img)).fs).fs
        (lg_out 128) =
      fs_lookup (logogeneration_main (lg_fs img)).fs (lg_out 128)) := by
  constructor
  · by_cases hm : img.mode = .rgba <;>
    simp +decide [create_icon_sizes, gen_loop, sizes_table, pil_open, pil_save,
      path_exists, path_join, hm]
  · simp +decide [logogeneration_main, icon_sizes, resize_icon, pil_open,
      pil_save, path_exists, path_join, lg_out, infer_format]

/-- C9: the advisory checks are purely diagnostic — logogen's `main`
leaves exactly the filesystem that `create_icon_sizes` alone produces —
and the source file still holds its original bytes after a full run of
either variant; every resize builds a new raster from the loaded one. -/
theorem C9_source_untouched :
    (∀ (fs : FS) (args : List String),
      path_exists fs (args.headD "logomain.png") = true →
      (logogen_main fs args).fs =
        (create_icon_sizes fs (args.headD "logomain.png") "images").fs) ∧
    (∀ img : Img,
      fs_lookup (create_icon_sizes (input_fs img) "logomain.png").fs
        "logomain.png" = some (.image "PNG" false img)) ∧
    (∀ img : Img,
      fs_lookup (logogeneration_main (lg_fs img)).fs
        logogeneration_input_file = some (.image "PNG" false img)) := by
  refine ⟨?_, ?_, ?_⟩
  · intro fs args h
    cases args with
    | nil =>
      simp only [List.headD] at h
      simp [logogen_main, h]
    | cons a as =>
      simp only [List.headD] at h
      simp [logogen_main, h]
  · intro img
    by_cases hm : img.mode = .rgba <;>
    simp +decide [create_icon_sizes, gen_loop, sizes_table, pil_open, pil_save,
      path_exists, path_join, hm]
  · intro img
    simp +decide [logogeneration_main, icon_sizes, resize_icon, pil_open,
      pil_save, path_exists, path_join, lg_out, infer_format]

/-- Witness for C9 applying the advisory-independence part at the
sample filesystem. -/
theorem C9_source_untouched_witness :
    path_exists (input_fs sample_img)
        (([] : List String).headD "logomain.png") = true ∧
      (logogen_main (input_fs sample_img) []).fs =
        (create_icon_sizes (input_fs sample_img) "logomain.png" "images").fs :=
  ⟨by decide, (C9_source_untouched).1 (input_fs sample_img) [] (by decide)⟩

/-- C10: the top-level success indication ignores detected save
failures.  On a path where the save call returns but the file does not
appear, `create_icon_sizes` prints the failed-save message yet still
returns `True`; and when every save fails, logogeneration's `main`
prints the per-size errors, writes nothing, and still prints the
all-icons-created summary, ignoring `resize_icon`'s boolean result. -/
theorem C10_success_despite_failures (img : Img) :
    ((create_icon_sizes ⟨[("logomain.png", .image "PNG" false img)], [], [],
        ["images/icon48.png"]⟩ "logomain.png").ok = true ∧
      Msg.failedSave "images/icon48.png" ∈
        (create_icon_sizes ⟨[("logomain.png", .image "PNG" false img)], [], [],
          ["images/icon48.png"]⟩ "logomain.png").msgs ∧
      fs_lookup (create_icon_sizes ⟨[("logomain.png", .image "PNG" false img)],
          [], [], ["images/icon48.png"]⟩ "logomain.png").fs
        "images/icon48.png" = none) ∧
    (Msg.allIconsCreated ∈
        (logogeneration_main ⟨[(logogeneration_input_file,
          .image "PNG" false img)], [dirname logogeneration_input_file],
          [lg_out 16, lg_out 48, lg_out 128], []⟩).msgs ∧
      Msg.errCreating (lg_out 16) ∈
        (logogeneration_main ⟨[(logogeneration_input_file,
          .image "PNG" false img)], [dirname logogeneration_input_file],
          [lg_out 16, lg_out 48, lg_out 128], []⟩).msgs ∧
      Msg.errCreating (lg_out 48) ∈
        (logogeneration_main ⟨[(logogeneration_input_file,
          .image "PNG" false img)], [dirname logogeneration_input_file],
          [lg_out 16, lg_out 48, lg_out 128], []⟩).msgs ∧
      Msg.errCreating (lg_out 128) ∈
        (logogeneration_main ⟨[(logogeneration_input_file,
          .image "PNG" false img)], [dirname logogeneration_input_file],
          [lg_out 16, lg_out 48, lg_out 128], []⟩).msgs ∧
      fs_lookup (logogeneration_main ⟨[(logogeneration_input_file,
          .image "PNG" false img)], [dirname logogeneration_input_file],
          [lg_out 16, lg_out 48, lg_out 128], []⟩).fs (lg_out 16) = none ∧
      fs_lookup (logogeneration_main ⟨[(logogeneration_input_file,
          .image "PNG" false img)], [dirname logogeneration_input_file],
          [lg_out 16, lg_out 48, lg_out 128], []⟩).fs (lg_out 48) = none ∧
      fs_lookup (logogeneration_main ⟨[(logogeneration_input_file,
          .image "PNG" false img)], [dirname logogeneration_input_file],
          [lg_out 16, lg_out 48, lg_out 128], []⟩).fs (lg_out 128) = none) := by
  constructor
  · by_cases hm : img.mode = .rgba <;>
    simp +decide [create_icon_sizes, gen_loop, sizes_table, pil_open, pil_save,
      path_exists, path_join, hm]
  · simp +decide [logogeneration_main, icon_sizes, resize_icon, pil_open,
      pil_save, path_exists, path_join, lg_out, infer_format]

end EQ
